import Mathlib

/-!
Shallow embedding of the startup/shutdown supervisor of cmd-registry-k8s
(`main.go`, the single visible source file).  The `main` function and
`exitOnErr` are translated into pure Lean functions over an explicit
`World` of external inputs (outcomes of each fallible external call, the
per-listener synchronous bind errors, the first asynchronous listener
error, signal arrival).  External library calls (go-spiffe `tlsconfig`,
`signal.NotifyContext`, `grpcutils.ListenAndServe`, the Go `context`
cancel function) are modelled by their documented observable behaviour at
the call sites in `main`.
-/

namespace RegistryK8s

/-- Log levels the supervisor emits (the subset of logrus levels used by
`main` and `exitOnErr`). -/
inductive LogLvl
  | info
  | error
  | fatal
deriving DecidableEq

/-- A log record: level and message. -/
structure LogEntry where
  level : LogLvl
  msg : String
deriving DecidableEq

/-- Observable startup events of `main` (lines 80-203), recorded in
execution order. -/
inductive Event
  | envProcess
  | getX509Source
  | getSVID
  | buildTLSClientConf
  | buildTLSServerConf
  | newVersionedClient
  | newRegistryChain
  | listenAndServe (i : Nat)
  | spawnWatcher (i : Nat)
  | startupCompleted
  | waitDone
deriving DecidableEq

/-- Peer authorizers usable in a TLS configuration; the source only ever
passes `tlsconfig.AuthorizeAny()` (lines 153 and 155). -/
inductive Authorizer
  | authorizeAny
deriving DecidableEq

/-- Model of a `crypto/tls` `Config` as built by `main`: which X509
source backs the SVID and the trust bundle, whether mutual authentication
is required, the peer authorizer, and `MinVersion`. -/
structure TLSConf where
  svidSource : Nat
  bundleSource : Nat
  mutualAuth : Bool
  authorizer : Authorizer
  minVersion : Nat
deriving DecidableEq

/-- Go constant `tls.VersionTLS12` (0x0303). -/
def versionTLS12 : Nat := 0x0303

/-- Model of go-spiffe `tlsconfig.MTLSClientConfig svid bundle authorizer`:
a mutually-authenticated client TLS configuration backed by the given
SVID and bundle sources; `MinVersion` is left at the Go zero value until
`main` pins it (line 154). -/
def mTLSClientConfig (svid bundle : Nat) (a : Authorizer) : TLSConf :=
  { svidSource := svid, bundleSource := bundle, mutualAuth := true, authorizer := a, minVersion := 0 }

/-- Model of go-spiffe `tlsconfig.MTLSServerConfig`, same shape as the
client variant (mutual authentication required). -/
def mTLSServerConfig (svid bundle : Nat) (a : Authorizer) : TLSConf :=
  { svidSource := svid, bundleSource := bundle, mutualAuth := true, authorizer := a, minVersion := 0 }

/-- Whether an authorizer accepts a peer (identified by an abstract id).
go-spiffe documents `AuthorizeAny` as authorizing any valid SVID,
regardless of the peer's identity. -/
def authorizerAccepts : Authorizer → Nat → Bool
  | Authorizer.authorizeAny, _ => true

/-- The process-lifetime context created by `signal.NotifyContext`
(line 83): observable through whether its Done channel is closed. -/
structure Ctx where
  done : Bool
deriving DecidableEq

/-- The cancel function of the lifetime context (Go `context.CancelFunc`):
cancelling closes Done; Go documents that after the first call,
subsequent calls do nothing. -/
def cancelCtx (c : Ctx) : Ctx := { c with done := true }

/-- The embedded external `registryk8s.Config`; `main` touches only its
`ClientSet` and `ChainCtx` fields (lines 183-184).  All its remaining
fields are kept abstract in `rest`. -/
structure RegistryK8sConfig where
  clientSet : Option Nat
  chainCtxSet : Bool
  rest : Nat
deriving DecidableEq

/-- The `Config` record (source lines 60-78): the embedded
`registryk8s.Config` plus the environment-populated fields. -/
structure Config where
  registry : RegistryK8sConfig
  listenOn : List String
  maxTokenLifetime : Nat
  registryServerPolicies : List String
  registryClientPolicies : List String
  logLevel : String
  openTelemetryEndpoint : String
  metricsExportInterval : Nat
  pprofEnabled : Bool
  pprofListenOn : String
  kubeletQPS : Int
deriving DecidableEq

/-- External inputs that determine one run of `main`: the outcome of each
fallible external call, the configuration produced by
`envconfig.Process`, the synchronous bind error already present in
listener `i`'s channel when `exitOnErr` runs, the first asynchronous
listener error delivered after startup (index and message), and whether a
termination signal (interrupt, hangup, terminate or quit) arrives. -/
structure World where
  usageErr : Option String
  processErr : Option String
  envConfig : Config
  levelOk : Bool
  x509Err : Option String
  sourceId : Nat
  svidErr : Option String
  clientErr : Option String
  clientId : Nat
  bindErr : Nat → Option String
  firstAsync : Option (Nat × String)
  signalArrives : Bool

/-- Result of one `exitOnErr` call: either the non-blocking select found
an error already in the channel (log Fatal, process exits), or no error
is present and a background watcher goroutine is spawned. -/
inductive ExitOnErrStep
  | fatalNow (e : String)
  | monitor
deriving DecidableEq

/-- `exitOnErr` (lines 205-218): a non-blocking select on the error
channel; if a value is already present it is logged Fatal (the process
exits), otherwise a watcher goroutine is spawned to wait asynchronously. -/
def exitOnErr (ch : Option String) : ExitOnErrStep :=
  match ch with
  | some e => ExitOnErrStep.fatalNow e
  | none => ExitOnErrStep.monitor

/-- The watcher goroutine body (lines 213-217): receive the error, log it
at Error level, cancel the lifetime context. -/
def deliverAsync (c : Ctx) (e : String) : Ctx × LogEntry :=
  (cancelCtx c, { level := LogLvl.error, msg := e })

/-- Fan-in of several delivered listener errors, in delivery order: each
watcher logs its error and invokes the shared cancel function. -/
def processDeliveries (c : Ctx) : List String → Ctx × List LogEntry
  | [] => (c, [])
  | e :: rest =>
    let d := deliverAsync c e
    let r := processDeliveries d.1 rest
    (r.1, d.2 :: r.2)

/-- Outcome of the listener startup loop (lines 196-199): the first
synchronous failure (if any), the error channels created (one per started
listener, identified by the listener's index), the listeners with a
background watcher, and the events and log entries of the loop. -/
structure LoopOut where
  fatalAt : Option (Nat × String)
  chans : List Nat
  watchers : List Nat
  events : List Event
  log : List LogEntry
deriving DecidableEq

/-- The startup loop from listener index `i` for `k` remaining listeners:
`grpcutils.ListenAndServe` returns listener `i` its own fresh error
channel (identified by the index) without blocking, then `exitOnErr`
runs on it.  A synchronous error ends the loop fatally; otherwise the
loop continues with the next address. -/
def startLoopAux (b : Nat → Option String) : Nat → Nat → LoopOut
  | _, 0 => { fatalAt := none, chans := [], watchers := [], events := [], log := [] }
  | i, Nat.succ k =>
    match exitOnErr (b i) with
    | ExitOnErrStep.fatalNow e =>
      { fatalAt := some (i, e), chans := [i], watchers := [],
        events := [Event.listenAndServe i], log := [{ level := LogLvl.fatal, msg := e }] }
    | ExitOnErrStep.monitor =>
      { fatalAt := (startLoopAux b (i + 1) k).fatalAt,
        chans := i :: (startLoopAux b (i + 1) k).chans,
        watchers := i :: (startLoopAux b (i + 1) k).watchers,
        events := Event.listenAndServe i :: Event.spawnWatcher i ::
          (startLoopAux b (i + 1) k).events,
        log := (startLoopAux b (i + 1) k).log }

/-- `StartAll`: the whole startup loop over the `n` configured listen
addresses, in list order. -/
def startAll (b : Nat → Option String) (n : Nat) : LoopOut := startLoopAux b 0 n

/-- The exit classification of a run: `fatalExit` via `logrus.Fatal`
(non-zero process exit code), `clean` return from `main` (exit code
zero), or `blocked` forever on `ctx.Done()` (no exit). -/
inductive ExitKind
  | fatalExit (msg : String)
  | clean
  | blocked
deriving DecidableEq

/-- The process exit code of a run, when the process exits at all:
logrus `Fatal` exits with code 1; a normal return from `main` exits 0. -/
def exitCode : ExitKind → Option Nat
  | ExitKind.fatalExit _ => some 1
  | ExitKind.clean => some 0
  | ExitKind.blocked => none

/-- Observables of one run of `main`. -/
structure MainResult where
  exitKind : ExitKind
  events : List Event
  log : List LogEntry
  tlsClient : Option TLSConf
  tlsServer : Option TLSConf
  cfgAfterEnv : Option Config
  cfgAtFactory : Option Config
  chans : List Nat
  watchers : List Nat
  ctxDone : Bool

/-- A run that ends in a logrus `Fatal`: the message is appended to the
log and the process exits non-zero; nothing after the failing line
executes. -/
def fatalRes (evs : List Event) (lg : List LogEntry) (e : String)
    (tc ts : Option TLSConf) (ca : Option Config) : MainResult :=
  { exitKind := ExitKind.fatalExit e
    events := evs
    log := lg ++ [{ level := LogLvl.fatal, msg := e }]
    tlsClient := tc
    tlsServer := ts
    cfgAfterEnv := ca
    cfgAtFactory := none
    chans := []
    watchers := []
    ctxDone := false }

/-- The client TLS configuration built on lines 153-154: derived from the
single X509 source (used both as SVID source and bundle source), with
`AuthorizeAny`, `MinVersion` pinned to TLS 1.2. -/
def tlsClientConfigOf (w : World) : TLSConf :=
  { mTLSClientConfig w.sourceId w.sourceId Authorizer.authorizeAny with minVersion := versionTLS12 }

/-- The server TLS configuration built on lines 155-156. -/
def tlsServerConfigOf (w : World) : TLSConf :=
  { mTLSServerConfig w.sourceId w.sourceId Authorizer.authorizeAny with minVersion := versionTLS12 }

/-- Lines 183-184: `main` assigns the freshly created ClientSet and the
lifetime context into the embedded registry config before handing it to
`registryk8s.NewServer`. -/
def cfgAtFactoryOf (w : World) : Config :=
  { w.envConfig with
    registry := { w.envConfig.registry with clientSet := some w.clientId, chainCtxSet := true } }

/-- Events of the straight-line startup path up to and including registry
chain construction (lines 143-194). -/
def preLoopEvents : List Event :=
  [Event.envProcess, Event.getX509Source, Event.getSVID, Event.buildTLSClientConf,
    Event.buildTLSServerConf, Event.newVersionedClient, Event.newRegistryChain]

/-- Informational log entries emitted on the straight-line startup path
before the listener loop (the config dump and the SVID line). -/
def preLoopLog : List LogEntry :=
  [{ level := LogLvl.info, msg := "Config" }, { level := LogLvl.info, msg := "SVID" }]

/-- Common shape of every run that reaches the listener loop. -/
def postStartupRes (w : World) (lp : LoopOut) (ek : ExitKind) (evs : List Event)
    (lg : List LogEntry) (cd : Bool) : MainResult :=
  { exitKind := ek
    events := evs
    log := lg
    tlsClient := some (tlsClientConfigOf w)
    tlsServer := some (tlsServerConfigOf w)
    cfgAfterEnv := some w.envConfig
    cfgAtFactory := some (cfgAtFactoryOf w)
    chans := lp.chans
    watchers := lp.watchers
    ctxDone := cd }

/-- Whether the first asynchronous listener error is delivered on a
channel that actually has a background watcher. -/
def asyncHit : Option (Nat × String) → List Nat → Option String
  | some ie, ws => if ie.1 ∈ ws then some ie.2 else none
  | none, _ => none

/-- Final wait of `main` when a termination signal triggers shutdown
(line 202 after the `signal.NotifyContext` handler cancels the context):
no log entry is emitted for the signal, the context is cancelled by the
same cancel function, and `main` returns with exit code zero. -/
def step9 (w : World) (lp : LoopOut) : Bool → MainResult
  | true =>
    postStartupRes w lp ExitKind.clean
      (preLoopEvents ++ lp.events ++ [Event.startupCompleted, Event.waitDone])
      (preLoopLog ++ [{ level := LogLvl.info, msg := "Startup completed" }])
      (cancelCtx { done := false }).done
  | false =>
    postStartupRes w lp ExitKind.blocked
      (preLoopEvents ++ lp.events ++ [Event.startupCompleted])
      (preLoopLog ++ [{ level := LogLvl.info, msg := "Startup completed" }])
      false

/-- Final wait of `main` after a clean startup: an asynchronous listener
error (if one is delivered to a watched channel) is logged at Error level
by its watcher, which cancels the context; `main` then returns with exit
code zero.  With no such error, shutdown waits on a signal. -/
def step8 (w : World) (lp : LoopOut) : Option String → MainResult
  | some e =>
    postStartupRes w lp ExitKind.clean
      (preLoopEvents ++ lp.events ++ [Event.startupCompleted, Event.waitDone])
      (preLoopLog ++ [{ level := LogLvl.info, msg := "Startup completed" }] ++
        [(deliverAsync { done := false } e).2])
      ((deliverAsync { done := false } e).1).done
  | none => step9 w lp w.signalArrives

/-- Dispatch on the outcome of the listener loop: a synchronous listener
failure is a fatal exit (lines 207-210); otherwise `main` logs startup
completion and blocks on `ctx.Done()`. -/
def step7a (w : World) (lp : LoopOut) : Option (Nat × String) → MainResult
  | some je =>
    postStartupRes w lp (ExitKind.fatalExit je.2) (preLoopEvents ++ lp.events)
      (preLoopLog ++ lp.log) false
  | none => step8 w lp (asyncHit w.firstAsync lp.watchers)

/-- Run the listener loop (lines 196-199) and the final wait. -/
def step7 (w : World) (lp : LoopOut) : MainResult := step7a w lp lp.fatalAt

/-- Line 176-181: `k8s.NewVersionedClient`; on error `main` logs Fatal. -/
def step6 (w : World) : Option String → MainResult
  | some e =>
    fatalRes
      [Event.envProcess, Event.getX509Source, Event.getSVID, Event.buildTLSClientConf,
        Event.buildTLSServerConf]
      preLoopLog e (some (tlsClientConfigOf w)) (some (tlsServerConfigOf w)) (some w.envConfig)
  | none => step7 w (startAll w.bindErr w.envConfig.listenOn.length)

/-- Lines 147-150: `source.GetX509SVID`; on error `main` logs Fatal,
otherwise the SVID is logged and both TLS configurations are built. -/
def step5 (w : World) : Option String → MainResult
  | some e =>
    fatalRes [Event.envProcess, Event.getX509Source]
      [{ level := LogLvl.info, msg := "Config" }] e none none (some w.envConfig)
  | none => step6 w w.clientErr

/-- Lines 143-146: `workloadapi.NewX509Source`; on error `main` logs
Fatal. -/
def step4 (w : World) : Option String → MainResult
  | some e =>
    fatalRes [Event.envProcess]
      [{ level := LogLvl.info, msg := "Config" }] e none none (some w.envConfig)
  | none => step5 w w.svidErr

/-- Lines 113-116: `logrus.ParseLevel` on the configured log level; on
failure `main` logs Fatal. -/
def step3 (w : World) : Bool → MainResult
  | false =>
    fatalRes [Event.envProcess] []
      ("invalid log level " ++ w.envConfig.logLevel) none none (some w.envConfig)
  | true => step4 w w.x509Err

/-- Lines 109-111: `envconfig.Process`; on error `main` logs Fatal. -/
def step2 (w : World) : Option String → MainResult
  | some e => fatalRes [] [] e none none none
  | none => step3 w w.levelOk

/-- Lines 106-108: `envconfig.Usage`; on error `main` logs Fatal. -/
def step1 (w : World) : Option String → MainResult
  | some e => fatalRes [] [] e none none none
  | none => step2 w w.processErr

/-- One run of `main` (lines 80-203) as a function of the external
inputs. -/
def runMain (w : World) : MainResult := step1 w w.usageErr

/-- All one-shot startup steps succeed: env usage and processing, log
level parsing, X509 source, SVID retrieval, Kubernetes client
creation. -/
def StartupOK (w : World) : Prop :=
  w.usageErr = none ∧ w.processErr = none ∧ w.levelOk = true ∧
  w.x509Err = none ∧ w.svidErr = none ∧ w.clientErr = none

/-- No configured listener has a synchronous bind error. -/
def NoSyncErr (w : World) : Prop :=
  ∀ i, i < w.envConfig.listenOn.length → w.bindErr i = none

/-- The index carried by a listener-start event, if any. -/
def listenIdx : Event → Option Nat
  | Event.listenAndServe i => some i
  | _ => none

/-- Events of a loop pass in which every listener from index `i` on (for
`k` listeners) subscribes cleanly. -/
def okEvents : Nat → Nat → List Event
  | _, 0 => []
  | i, Nat.succ k => Event.listenAndServe i :: Event.spawnWatcher i :: okEvents (i + 1) k

/-- Events of a loop pass that fails synchronously at offset `j` from
index `i`: the first `j` listeners subscribe cleanly, listener `i + j`
starts and its error is found immediately. -/
def errEvents (i j : Nat) : List Event := okEvents i j ++ [Event.listenAndServe (i + j)]

/-- A sample configuration with two listen addresses, used to evaluate
the theorems on concrete runs. -/
def cfgEx : Config :=
  { registry := { clientSet := none, chainCtxSet := false, rest := 0 }
    listenOn := ["unix:///listen.on.socket", "tcp://0.0.0.0:5002"]
    maxTokenLifetime := 600
    registryServerPolicies := ["etc/nsm/opa/common/.*.rego"]
    registryClientPolicies := ["etc/nsm/opa/common/.*.rego"]
    logLevel := "INFO"
    openTelemetryEndpoint := "otel-collector:4317"
    metricsExportInterval := 10
    pprofEnabled := false
    pprofListenOn := "localhost:6060"
    kubeletQPS := 205 }

/-- A run in which every startup step succeeds, no listener fails, and a
termination signal eventually triggers a clean shutdown. -/
def wOK : World :=
  { usageErr := none
    processErr := none
    envConfig := cfgEx
    levelOk := true
    x509Err := none
    sourceId := 3
    svidErr := none
    clientErr := none
    clientId := 7
    bindErr := fun _ => none
    firstAsync := none
    signalArrives := true }

/-- A run identical to `wOK` except that listener 0 delivers an
asynchronous error after startup and no signal ever arrives. -/
def wAsync : World := { wOK with firstAsync := some (0, "listener error"), signalArrives := false }

/-- A run identical to `wOK` except that listener 1 fails synchronously
("address already in use" already in its channel when `exitOnErr`
runs). -/
def wSync : World :=
  { wOK with bindErr := fun i => if i = 1 then some "address already in use" else none }

/-- A run whose very first startup step (`envconfig.Usage`) fails. -/
def wFatal : World := { wOK with usageErr := some "usage error" }

/-- The cancel function is idempotent: a second invocation changes
nothing. -/
theorem cancelCtx_cancelCtx (c : Ctx) : cancelCtx (cancelCtx c) = cancelCtx c := rfl

/-- Cancelling always leaves the Done channel closed. -/
theorem cancelCtx_done (c : Ctx) : (cancelCtx c).done = true := rfl

/-- Fan-in of a non-empty batch of delivered errors: the context ends up
exactly as after a single cancellation, and every error is logged at
Error level (never Fatal). -/
theorem processDeliveries_eq (c : Ctx) (errs : List String) (h : errs ≠ []) :
    processDeliveries c errs =
      (cancelCtx c, errs.map fun e => { level := LogLvl.error, msg := e }) := by
  induction errs generalizing c with
  | nil => exact absurd rfl h
  | cons e tl ih =>
    cases tl with
    | nil => rfl
    | cons x xs =>
      have hstep : processDeliveries c (e :: x :: xs) =
          ((processDeliveries (cancelCtx c) (x :: xs)).1,
            { level := LogLvl.error, msg := e } ::
              (processDeliveries (cancelCtx c) (x :: xs)).2) := rfl
      rw [hstep, ih (cancelCtx c) (by simp)]
      simp [cancelCtx_cancelCtx]

/-- A clean loop pass: when no listener in the window has a synchronous
error, the loop produces no fatal outcome, one channel and one watcher
per listener (in order), the start/subscribe events in order, and no log
output. -/
theorem startLoopAux_ok (b : Nat → Option String) :
    ∀ (k i : Nat), (∀ j, j < k → b (i + j) = none) →
      startLoopAux b i k =
        { fatalAt := none, chans := List.range' i k, watchers := List.range' i k,
          events := okEvents i k, log := [] } := by
  intro k
  induction k with
  | zero => intro i _; rfl
  | succ k ih =>
    intro i h
    have h0 : b i = none := by simpa using h 0 (Nat.succ_pos k)
    have hrest : ∀ j, j < k → b (i + 1 + j) = none := by
      intro j hj
      have := h (j + 1) (Nat.succ_lt_succ hj)
      have harith : i + (j + 1) = i + 1 + j := by omega
      rwa [harith] at this
    simp only [startLoopAux, h0, exitOnErr]
    rw [ih (i + 1) hrest, List.range'_succ]
    simp [okEvents]

/-- A loop pass whose first synchronous error sits at offset `j`: the
loop exits fatally there, having created channels for listeners `i` to
`i + j` and watchers only for the `j` listeners before the failing
one. -/
theorem startLoopAux_firstErr (b : Nat → Option String) (e : String) :
    ∀ (j i k : Nat), (∀ t, t < j → b (i + t) = none) → b (i + j) = some e → j < k →
      startLoopAux b i k =
        { fatalAt := some (i + j, e), chans := List.range' i (j + 1),
          watchers := List.range' i j, events := errEvents i j,
          log := [{ level := LogLvl.fatal, msg := e }] } := by
  intro j
  induction j with
  | zero =>
    intro i k _ he hk
    cases k with
    | zero => omega
    | succ k =>
      rw [Nat.add_zero] at he
      simp [startLoopAux, he, exitOnErr, errEvents, okEvents, List.range'_one,
        List.range'_zero]
  | succ j ih =>
    intro i k h0 he hk
    cases k with
    | zero => omega
    | succ k =>
      have hbi : b i = none := by simpa using h0 0 (Nat.succ_pos j)
      have hpre : ∀ t, t < j → b (i + 1 + t) = none := by
        intro t ht
        have := h0 (t + 1) (Nat.succ_lt_succ ht)
        have harith : i + (t + 1) = i + 1 + t := by omega
        rwa [harith] at this
      have he2 : b (i + 1 + j) = some e := by
        have harith : i + (j + 1) = i + 1 + j := by omega
        rwa [harith] at he
      simp only [startLoopAux, hbi, exitOnErr]
      rw [ih (i + 1) k hpre he2 (by omega)]
      rw [List.range'_succ i (j + 1), List.range'_succ i j]
      have harith2 : i + (j + 1) = i + 1 + j := by omega
      simp [errEvents, okEvents, harith2]

/-- The listener-start events of any loop pass form a contiguous
ascending index range starting at the window's first index. -/
theorem startLoopAux_filterMap (b : Nat → Option String) :
    ∀ (k i : Nat), ∃ m, m ≤ k ∧
      (startLoopAux b i k).events.filterMap listenIdx = List.range' i m := by
  intro k
  induction k with
  | zero => intro i; exact ⟨0, Nat.le_refl 0, rfl⟩
  | succ k ih =>
    intro i
    cases hb : b i with
    | some e =>
      refine ⟨1, by omega, ?_⟩
      simp [startLoopAux, hb, exitOnErr, listenIdx, List.range'_one]
    | none =>
      obtain ⟨m, hm, hfm⟩ := ih (i + 1)
      refine ⟨m + 1, by omega, ?_⟩
      simp [startLoopAux, hb, exitOnErr, listenIdx, hfm, List.range'_succ]

/-- Under a fully successful startup, `main` reduces to the listener
loop followed by the final wait. -/
theorem runMain_startupOK (w : World) (hs : StartupOK w) :
    runMain w = step7 w (startAll w.bindErr w.envConfig.listenOn.length) := by
  obtain ⟨h1, h2, h3, h4, h5, h6⟩ := hs
  simp only [runMain, h1, step1, h2, step2, h3, step3, h4, step4, h5, step5, h6, step6]

/-- Every run that reaches the listener loop carries the configuration
snapshots, both TLS configurations, and the loop's channels and
watchers. -/
theorem step7_proj (w : World) (lp : LoopOut) :
    (step7 w lp).cfgAfterEnv = some w.envConfig ∧
    (step7 w lp).cfgAtFactory = some (cfgAtFactoryOf w) ∧
    (step7 w lp).tlsClient = some (tlsClientConfigOf w) ∧
    (step7 w lp).tlsServer = some (tlsServerConfigOf w) ∧
    (step7 w lp).chans = lp.chans ∧
    (step7 w lp).watchers = lp.watchers := by
  unfold step7
  cases lp.fatalAt with
  | some je => simp [step7a, postStartupRes]
  | none =>
    simp only [step7a]
    cases asyncHit w.firstAsync lp.watchers with
    | some e => simp [step8, postStartupRes]
    | none =>
      simp only [step8]
      cases w.signalArrives <;> simp [step9, postStartupRes]

/-- The events of every run that reaches the listener loop are the
straight-line startup events, the loop's events, then a tail that
contains no listener start. -/
theorem step7_events (w : World) (lp : LoopOut) :
    ∃ t, (step7 w lp).events = preLoopEvents ++ lp.events ++ t ∧
      t.filterMap listenIdx = [] := by
  unfold step7
  cases lp.fatalAt with
  | some je => exact ⟨[], by simp [step7a, postStartupRes], rfl⟩
  | none =>
    simp only [step7a]
    cases asyncHit w.firstAsync lp.watchers with
    | some e =>
      exact ⟨[Event.startupCompleted, Event.waitDone], by simp [step8, postStartupRes], rfl⟩
    | none =>
      simp only [step8]
      cases w.signalArrives with
      | false => exact ⟨[Event.startupCompleted], by simp [step9, postStartupRes], rfl⟩
      | true =>
        exact ⟨[Event.startupCompleted, Event.waitDone], by simp [step9, postStartupRes], rfl⟩

/-- A run whose listener loop finishes without a synchronous error goes
on to log startup completion. -/
theorem step7_startupCompleted (w : World) (lp : LoopOut) (h : lp.fatalAt = none) :
    Event.startupCompleted ∈ (step7 w lp).events := by
  unfold step7
  rw [h]
  simp only [step7a]
  cases asyncHit w.firstAsync lp.watchers with
  | some e => simp [step8, postStartupRes]
  | none =>
    simp only [step8]
    cases w.signalArrives <;> simp [step9, postStartupRes]

/-- Every run is either a fatal exit of one of the six startup shapes
(with the TLS configurations, when already built, the ones of lines
153-156, never a registry-chain or listener-start event) or is a
fully-successful startup reaching the listener loop. -/
theorem runMain_cases (w : World) :
    (∃ e evs lg tc ts ca, runMain w = fatalRes evs lg e tc ts ca ∧
      Event.newRegistryChain ∉ evs ∧ evs.filterMap listenIdx = [] ∧
      (tc = none ∨ tc = some (tlsClientConfigOf w)) ∧
      (ts = none ∨ ts = some (tlsServerConfigOf w))) ∨
    (StartupOK w ∧
      runMain w = step7 w (startAll w.bindErr w.envConfig.listenOn.length)) := by
  cases h1 : w.usageErr with
  | some e =>
    refine Or.inl ⟨e, [], [], none, none, none, ?_, by simp, rfl, Or.inl rfl, Or.inl rfl⟩
    simp [runMain, h1, step1]
  | none =>
  cases h2 : w.processErr with
  | some e =>
    refine Or.inl ⟨e, [], [], none, none, none, ?_, by simp, rfl, Or.inl rfl, Or.inl rfl⟩
    simp [runMain, h1, step1, h2, step2]
  | none =>
  cases h3 : w.levelOk with
  | false =>
    refine Or.inl ⟨"invalid log level " ++ w.envConfig.logLevel, [Event.envProcess], [],
      none, none, some w.envConfig, ?_, by decide, rfl, Or.inl rfl, Or.inl rfl⟩
    simp [runMain, h1, step1, h2, step2, h3, step3]
  | true =>
  cases h4 : w.x509Err with
  | some e =>
    refine Or.inl ⟨e, [Event.envProcess], [{ level := LogLvl.info, msg := "Config" }],
      none, none, some w.envConfig, ?_, by decide, rfl, Or.inl rfl, Or.inl rfl⟩
    simp [runMain, h1, step1, h2, step2, h3, step3, h4, step4]
  | none =>
  cases h5 : w.svidErr with
  | some e =>
    refine Or.inl ⟨e, [Event.envProcess, Event.getX509Source],
      [{ level := LogLvl.info, msg := "Config" }], none, none, some w.envConfig, ?_,
      by decide, rfl, Or.inl rfl, Or.inl rfl⟩
    simp [runMain, h1, step1, h2, step2, h3, step3, h4, step4, h5, step5]
  | none =>
  cases h6 : w.clientErr with
  | some e =>
    refine Or.inl ⟨e,
      [Event.envProcess, Event.getX509Source, Event.getSVID, Event.buildTLSClientConf,
        Event.buildTLSServerConf],
      preLoopLog, some (tlsClientConfigOf w), some (tlsServerConfigOf w), some w.envConfig, ?_,
      by decide, rfl, Or.inr rfl, Or.inr rfl⟩
    simp [runMain, h1, step1, h2, step2, h3, step3, h4, step4, h5, step5, h6, step6]
  | none =>
    exact Or.inr ⟨⟨h1, h2, h3, h4, h5, h6⟩, runMain_startupOK w ⟨h1, h2, h3, h4, h5, h6⟩⟩

/-- Whenever a run exposes a client TLS configuration, it is the one of
lines 153-154; same for the server configuration. -/
theorem runMain_tls (w : World) :
    (∀ cc, (runMain w).tlsClient = some cc → cc = tlsClientConfigOf w) ∧
    (∀ sc, (runMain w).tlsServer = some sc → sc = tlsServerConfigOf w) := by
  rcases runMain_cases w with ⟨e, evs, lg, tc, ts, ca, heq, _, _, htc, hts⟩ | ⟨_, h⟩
  · constructor
    · intro cc hcc
      rw [heq] at hcc
      simp only [fatalRes] at hcc
      rcases htc with h | h
      · rw [h] at hcc; exact absurd hcc (by simp)
      · rw [h] at hcc; exact (Option.some_inj.mp hcc).symm
    · intro sc hsc
      rw [heq] at hsc
      simp only [fatalRes] at hsc
      rcases hts with h | h
      · rw [h] at hsc; exact absurd hsc (by simp)
      · rw [h] at hsc; exact (Option.some_inj.mp hsc).symm
  · rw [h]
    obtain ⟨_, _, hc, hs, _, _⟩ := step7_proj w (startAll w.bindErr w.envConfig.listenOn.length)
    constructor
    · intro cc hcc
      rw [hc] at hcc; exact (Option.some_inj.mp hcc).symm
    · intro sc hsc
      rw [hs] at hsc; exact (Option.some_inj.mp hsc).symm

/-- Whenever a run exposes the configuration handed to the factories, it
is the environment configuration with exactly the ClientSet and ChainCtx
assignments of lines 183-184 applied. -/
theorem runMain_cfgAtFactory (w : World) (cf : Config)
    (h : (runMain w).cfgAtFactory = some cf) :
    cf = cfgAtFactoryOf w ∧ (runMain w).cfgAfterEnv = some w.envConfig := by
  rcases runMain_cases w with ⟨e, evs, lg, tc, ts, ca, heq, _, _, _, _⟩ | ⟨_, heq⟩
  · rw [heq] at h
    simp only [fatalRes] at h
    exact absurd h (by simp)
  · rw [heq] at h ⊢
    obtain ⟨he, hf, _, _, _, _⟩ := step7_proj w (startAll w.bindErr w.envConfig.listenOn.length)
    rw [hf] at h
    exact ⟨(Option.some_inj.mp h).symm, he⟩

/-- C5: invoking the lifetime-context cancellation operation more than
once, in any sequence, has the same observable effect on the context as
invoking it exactly once: any chain of `n ≥ 1` invocations equals a
single invocation. -/
theorem c5_cancel_idempotent (c : Ctx) (n : Nat) (h : 1 ≤ n) :
    cancelCtx^[n] c = cancelCtx c := by
  induction n generalizing c with
  | zero => omega
  | succ k ih =>
    cases Nat.eq_zero_or_pos k with
    | inl h0 => subst h0; simp
    | inr hpos =>
      rw [Function.iterate_succ_apply, ih (cancelCtx c) hpos, cancelCtx_cancelCtx]

/-- C5 witness: three successive cancellations of the fresh context have
the same effect as one. -/
theorem c5_cancel_idempotent_witness :
    1 ≤ 3 ∧ cancelCtx^[3] { done := false } = cancelCtx { done := false } :=
  ⟨by omega, c5_cancel_idempotent { done := false } 3 (by omega)⟩

/-- C7: both TLS configurations are derived from the single X509 source
acquired for the process (it backs both the SVID and the trust bundle on
both sides), both require mutual authentication, and both have their
minimum protocol version pinned to at least TLS 1.2. -/
theorem c7_mtls_configs (w : World) (cc sc : TLSConf)
    (hc : (runMain w).tlsClient = some cc) (hs : (runMain w).tlsServer = some sc) :
    cc.svidSource = w.sourceId ∧ cc.bundleSource = w.sourceId ∧
    sc.svidSource = w.sourceId ∧ sc.bundleSource = w.sourceId ∧
    cc.mutualAuth = true ∧ sc.mutualAuth = true ∧
    versionTLS12 ≤ cc.minVersion ∧ versionTLS12 ≤ sc.minVersion := by
  obtain ⟨hC, hS⟩ := runMain_tls w
  rw [hC cc hc, hS sc hs]
  refine ⟨rfl, rfl, rfl, rfl, rfl, rfl, Nat.le_refl _, Nat.le_refl _⟩

/-- C7 witness: the clean concrete run exposes both configurations and
every conclusion holds there. -/
theorem c7_mtls_configs_witness :
    (tlsClientConfigOf wOK).svidSource = wOK.sourceId ∧
    (tlsClientConfigOf wOK).bundleSource = wOK.sourceId ∧
    (tlsServerConfigOf wOK).svidSource = wOK.sourceId ∧
    (tlsServerConfigOf wOK).bundleSource = wOK.sourceId ∧
    (tlsClientConfigOf wOK).mutualAuth = true ∧
    (tlsServerConfigOf wOK).mutualAuth = true ∧
    versionTLS12 ≤ (tlsClientConfigOf wOK).minVersion ∧
    versionTLS12 ≤ (tlsServerConfigOf wOK).minVersion :=
  c7_mtls_configs wOK (tlsClientConfigOf wOK) (tlsServerConfigOf wOK) rfl rfl

/-- C10: both mutual-TLS configurations carry the authorize-any peer
policy: any peer with a certificate valid against the trust bundle is
accepted, whatever its identity; the TLS configurations restrict no peer
identity. -/
theorem c10_authorize_any (w : World) (cc sc : TLSConf)
    (hc : (runMain w).tlsClient = some cc) (hs : (runMain w).tlsServer = some sc) :
    cc.authorizer = Authorizer.authorizeAny ∧ sc.authorizer = Authorizer.authorizeAny ∧
    (∀ peer, authorizerAccepts cc.authorizer peer = true) ∧
    (∀ peer, authorizerAccepts sc.authorizer peer = true) := by
  obtain ⟨hC, hS⟩ := runMain_tls w
  rw [hC cc hc, hS sc hs]
  exact ⟨rfl, rfl, fun _ => rfl, fun _ => rfl⟩

/-- C10 witness: the clean concrete run exposes both configurations and
every conclusion holds there. -/
theorem c10_authorize_any_witness :
    (tlsClientConfigOf wOK).authorizer = Authorizer.authorizeAny ∧
    (tlsServerConfigOf wOK).authorizer = Authorizer.authorizeAny ∧
    (∀ peer, authorizerAccepts (tlsClientConfigOf wOK).authorizer peer = true) ∧
    (∀ peer, authorizerAccepts (tlsServerConfigOf wOK).authorizer peer = true) :=
  c10_authorize_any wOK (tlsClientConfigOf wOK) (tlsServerConfigOf wOK) rfl rfl

/-- C2 (amended): every environment-populated field of the Config is
unchanged when the record is handed to the downstream factories; the
only mutations are the one-time assignments of the embedded registry
config's ClientSet (to the created Kubernetes client) and ChainCtx (to
the lifetime context) on lines 183-184, after environment processing and
before the factory call. -/
theorem c2_config_fields (w : World) (cf ca : Config)
    (hf : (runMain w).cfgAtFactory = some cf) (he : (runMain w).cfgAfterEnv = some ca) :
    cf.listenOn = ca.listenOn ∧ cf.maxTokenLifetime = ca.maxTokenLifetime ∧
    cf.registryServerPolicies = ca.registryServerPolicies ∧
    cf.registryClientPolicies = ca.registryClientPolicies ∧
    cf.logLevel = ca.logLevel ∧ cf.openTelemetryEndpoint = ca.openTelemetryEndpoint ∧
    cf.metricsExportInterval = ca.metricsExportInterval ∧
    cf.pprofEnabled = ca.pprofEnabled ∧ cf.pprofListenOn = ca.pprofListenOn ∧
    cf.kubeletQPS = ca.kubeletQPS ∧ cf.registry.rest = ca.registry.rest ∧
    cf.registry.clientSet = some w.clientId ∧ cf.registry.chainCtxSet = true := by
  obtain ⟨hcf, henv⟩ := runMain_cfgAtFactory w cf hf
  have hca : ca = w.envConfig := Option.some_inj.mp (he.symm.trans henv)
  subst hcf
  subst hca
  simp [cfgAtFactoryOf]

/-- C2 witness: the clean concrete run exposes both snapshots and every
conclusion holds there. -/
theorem c2_config_fields_witness :
    (cfgAtFactoryOf wOK).listenOn = cfgEx.listenOn ∧
    (cfgAtFactoryOf wOK).maxTokenLifetime = cfgEx.maxTokenLifetime ∧
    (cfgAtFactoryOf wOK).registryServerPolicies = cfgEx.registryServerPolicies ∧
    (cfgAtFactoryOf wOK).registryClientPolicies = cfgEx.registryClientPolicies ∧
    (cfgAtFactoryOf wOK).logLevel = cfgEx.logLevel ∧
    (cfgAtFactoryOf wOK).openTelemetryEndpoint = cfgEx.openTelemetryEndpoint ∧
    (cfgAtFactoryOf wOK).metricsExportInterval = cfgEx.metricsExportInterval ∧
    (cfgAtFactoryOf wOK).pprofEnabled = cfgEx.pprofEnabled ∧
    (cfgAtFactoryOf wOK).pprofListenOn = cfgEx.pprofListenOn ∧
    (cfgAtFactoryOf wOK).kubeletQPS = cfgEx.kubeletQPS ∧
    (cfgAtFactoryOf wOK).registry.rest = cfgEx.registry.rest ∧
    (cfgAtFactoryOf wOK).registry.clientSet = some wOK.clientId ∧
    (cfgAtFactoryOf wOK).registry.chainCtxSet = true :=
  c2_config_fields wOK (cfgAtFactoryOf wOK) cfgEx rfl rfl

/-- C2 counterexample: at a concrete run the configuration handed to the
factories is not equal to the configuration right after environment
processing: its ClientSet field has been assigned in between. -/
theorem c2_counterexample :
    (runMain wOK).cfgAtFactory ≠ (runMain wOK).cfgAfterEnv ∧
    Option.map (fun c => c.registry.clientSet) (runMain wOK).cfgAtFactory = some (some 7) ∧
    Option.map (fun c => c.registry.clientSet) (runMain wOK).cfgAfterEnv = some none := by
  refine ⟨?_, rfl, rfl⟩
  intro h
  have h2 : (some (some 7) : Option (Option Nat)) = some none :=
    (rfl : Option.map (fun c => c.registry.clientSet) (runMain wOK).cfgAtFactory =
      some (some 7)).symm.trans
      ((congrArg (Option.map fun c => c.registry.clientSet) h).trans
        (rfl : Option.map (fun c => c.registry.clientSet) (runMain wOK).cfgAfterEnv =
          some none))
  simp at h2

/-- C3: a listener whose error channel already holds a value when
`exitOnErr` runs is detected immediately by the non-blocking check: the
error is logged Fatal and the run exits fatally; background monitoring
exists only for the earlier listeners, and in general monitoring is set
up exactly when the non-blocking check found the channel empty. -/
theorem c3_sync_error (w : World) (j : Nat) (e : String) (hs : StartupOK w)
    (hpre : ∀ t, t < j → w.bindErr t = none) (hj : w.bindErr j = some e)
    (hjn : j < w.envConfig.listenOn.length) :
    (runMain w).exitKind = ExitKind.fatalExit e ∧
    { level := LogLvl.fatal, msg := e } ∈ (runMain w).log ∧
    (runMain w).watchers = List.range j ∧
    (runMain w).chans = List.range (j + 1) ∧
    (∀ ch : Option String, exitOnErr ch = ExitOnErrStep.monitor ↔ ch = none) := by
  have hloop := startLoopAux_firstErr w.bindErr e j 0 w.envConfig.listenOn.length
    (by intro t ht; simpa using hpre t ht) (by simpa using hj) hjn
  rw [runMain_startupOK w hs]
  unfold step7 startAll
  rw [hloop]
  refine ⟨?_, ?_, ?_, ?_, ?_⟩
  · simp [step7a, postStartupRes]
  · simp [step7a, postStartupRes, preLoopLog]
  · simp [step7a, postStartupRes, List.range_eq_range']
  · simp [step7a, postStartupRes, List.range_eq_range']
  · intro ch
    cases ch <;> simp [exitOnErr]

/-- C3 witness: with three startup steps fine and listener 1 failing
synchronously ("address already in use"), the run exits fatally with
that error, one watcher exists (listener 0) and two channels were
created. -/
theorem c3_sync_error_witness :
    (runMain wSync).exitKind = ExitKind.fatalExit "address already in use" ∧
    { level := LogLvl.fatal, msg := "address already in use" } ∈ (runMain wSync).log ∧
    (runMain wSync).watchers = List.range 1 ∧
    (runMain wSync).chans = List.range (1 + 1) ∧
    (∀ ch : Option String, exitOnErr ch = ExitOnErrStep.monitor ↔ ch = none) :=
  c3_sync_error wSync 1 "address already in use" ⟨rfl, rfl, rfl, rfl, rfl, rfl⟩
    (by intro t ht; rw [Nat.lt_one_iff] at ht; subst ht; rfl) rfl (by decide)

/-- C4: an asynchronous error delivered on any of the listener error
channels cancels the lifetime context, regardless of which channel it
was; and concurrent failures collapse to a single cancellation, the
errors after the first producing only Error-level best-effort log
entries, never a second fatal action. -/
theorem c4_first_error_cancels (w : World) (i : Nat) (e : String) (hs : StartupOK w)
    (hn : NoSyncErr w) (hfa : w.firstAsync = some (i, e))
    (hi : i < w.envConfig.listenOn.length) :
    ((runMain w).ctxDone = true ∧ (runMain w).exitKind = ExitKind.clean ∧
      { level := LogLvl.error, msg := e } ∈ (runMain w).log) ∧
    (∀ (c : Ctx) (errs : List String), errs ≠ [] →
      processDeliveries c errs =
        (cancelCtx c, errs.map fun e2 => { level := LogLvl.error, msg := e2 })) := by
  constructor
  · rw [runMain_startupOK w hs]
    unfold step7 startAll
    rw [startLoopAux_ok w.bindErr w.envConfig.listenOn.length 0
      (by intro jj hjj; simpa using hn jj hjj)]
    have hmem : i ∈ List.range' 0 w.envConfig.listenOn.length := by
      rw [← List.range_eq_range']
      exact List.mem_range.mpr hi
    simp [step7a, asyncHit, hfa, hmem, step8, postStartupRes, deliverAsync, cancelCtx]
  · intro c errs hne
    exact processDeliveries_eq c errs hne

/-- C4 witness: in the concrete run where listener 0 delivers
"listener error" after startup, the context ends cancelled and the run
exits cleanly with the error logged at Error level; a two-error batch
collapses to one cancellation. -/
theorem c4_first_error_cancels_witness :
    ((runMain wAsync).ctxDone = true ∧ (runMain wAsync).exitKind = ExitKind.clean ∧
      { level := LogLvl.error, msg := "listener error" } ∈ (runMain wAsync).log) ∧
    (∀ (c : Ctx) (errs : List String), errs ≠ [] →
      processDeliveries c errs =
        (cancelCtx c, errs.map fun e2 => { level := LogLvl.error, msg := e2 })) :=
  c4_first_error_cancels wAsync 0 "listener error" ⟨rfl, rfl, rfl, rfl, rfl, rfl⟩
    (fun _ _ => rfl) rfl (by decide)

/-- C6 (amended): a signal-triggered shutdown is not treated as an
error: the run returns cleanly with exit code zero, the lifetime context
ends cancelled through the same cancel function used on listener errors,
and every log entry of the whole run is one of the informational startup
messages - in particular no entry (at any level) records the signal
itself. -/
theorem c6_signal_shutdown (w : World) (hs : StartupOK w) (hn : NoSyncErr w)
    (hfa : w.firstAsync = none) (hsig : w.signalArrives = true) :
    (runMain w).exitKind = ExitKind.clean ∧
    exitCode (runMain w).exitKind = some 0 ∧
    (runMain w).ctxDone = (cancelCtx { done := false }).done ∧
    (runMain w).log = preLoopLog ++ [{ level := LogLvl.info, msg := "Startup completed" }] ∧
    (∀ l, l ∈ (runMain w).log → l.level = LogLvl.info) := by
  rw [runMain_startupOK w hs]
  unfold step7 startAll
  rw [startLoopAux_ok w.bindErr w.envConfig.listenOn.length 0
    (by intro jj hjj; simpa using hn jj hjj)]
  refine ⟨?_, ?_, ?_, ?_, ?_⟩
  · simp [step7a, asyncHit, hfa, step8, hsig, step9, postStartupRes]
  · simp [step7a, asyncHit, hfa, step8, hsig, step9, postStartupRes, exitCode]
  · simp [step7a, asyncHit, hfa, step8, hsig, step9, postStartupRes]
  · simp [step7a, asyncHit, hfa, step8, hsig, step9, postStartupRes]
  · intro l hl
    simp [step7a, asyncHit, hfa, step8, hsig, step9, postStartupRes, preLoopLog] at hl
    rcases hl with rfl | rfl | rfl <;> rfl

/-- C6 witness: the concrete clean run shuts down on the signal with
exit code zero and only informational startup log entries. -/
theorem c6_signal_shutdown_witness :
    (runMain wOK).exitKind = ExitKind.clean ∧
    exitCode (runMain wOK).exitKind = some 0 ∧
    (runMain wOK).ctxDone = (cancelCtx { done := false }).done ∧
    (runMain wOK).log = preLoopLog ++ [{ level := LogLvl.info, msg := "Startup completed" }] ∧
    (∀ l, l ∈ (runMain wOK).log → l.level = LogLvl.info) :=
  c6_signal_shutdown wOK ⟨rfl, rfl, rfl, rfl, rfl, rfl⟩ (fun _ _ => rfl) rfl rfl

/-- C6 counterexample: the signal is never logged.  The run with the
signal has exactly the same log as the identical run without it (which
blocks forever instead of shutting down), so no informational entry
records the signal, contrary to the claim. -/
theorem c6_counterexample :
    (runMain wOK).exitKind = ExitKind.clean ∧
    (runMain { wOK with signalArrives := false }).exitKind = ExitKind.blocked ∧
    (runMain wOK).log = (runMain { wOK with signalArrives := false }).log :=
  ⟨rfl, rfl, rfl⟩

/-- C8: with a non-empty address list and no synchronous listener
error, starting all listeners terminates with no fatal outcome and
control returns to the caller (the run goes on to log startup
completion), and each started listener has its own distinct error
channel (one fresh channel per listener, no channel shared). -/
theorem c8_startall (w : World) (hs : StartupOK w) (hn : NoSyncErr w)
    (_hne : 0 < w.envConfig.listenOn.length) :
    (startAll w.bindErr w.envConfig.listenOn.length).fatalAt = none ∧
    (startAll w.bindErr w.envConfig.listenOn.length).chans =
      List.range w.envConfig.listenOn.length ∧
    (startAll w.bindErr w.envConfig.listenOn.length).chans.Nodup ∧
    (startAll w.bindErr w.envConfig.listenOn.length).watchers =
      List.range w.envConfig.listenOn.length ∧
    Event.startupCompleted ∈ (runMain w).events := by
  have hstart : startAll w.bindErr w.envConfig.listenOn.length =
      { fatalAt := none, chans := List.range' 0 w.envConfig.listenOn.length,
        watchers := List.range' 0 w.envConfig.listenOn.length,
        events := okEvents 0 w.envConfig.listenOn.length, log := [] } :=
    startLoopAux_ok w.bindErr w.envConfig.listenOn.length 0
      (by intro j hj; simpa using hn j hj)
  refine ⟨by rw [hstart], ?_, ?_, ?_, ?_⟩
  · rw [hstart]
    simp [List.range_eq_range']
  · rw [hstart]
    show (List.range' 0 w.envConfig.listenOn.length).Nodup
    rw [← List.range_eq_range']
    exact List.nodup_range _
  · rw [hstart]
    simp [List.range_eq_range']
  · rw [runMain_startupOK w hs]
    exact step7_startupCompleted w _ (by rw [hstart])

/-- C8 witness: in the clean concrete run with two addresses, the loop
finishes with two distinct channels and two watchers, and startup
completion is reached. -/
theorem c8_startall_witness :
    (startAll wOK.bindErr wOK.envConfig.listenOn.length).fatalAt = none ∧
    (startAll wOK.bindErr wOK.envConfig.listenOn.length).chans =
      List.range wOK.envConfig.listenOn.length ∧
    (startAll wOK.bindErr wOK.envConfig.listenOn.length).chans.Nodup ∧
    (startAll wOK.bindErr wOK.envConfig.listenOn.length).watchers =
      List.range wOK.envConfig.listenOn.length ∧
    Event.startupCompleted ∈ (runMain wOK).events :=
  c8_startall wOK ⟨rfl, rfl, rfl, rfl, rfl, rfl⟩ (fun _ _ => rfl) (by decide)

/-- C1 (amended): the exit code is non-zero (1, via logrus Fatal) on
every fatal startup error and on every synchronous listener error
detected during the startup loop; it is zero both on a clean
signal-triggered shutdown with no listener error and after an
asynchronous listener error, which is logged at Error level and shuts
the process down through context cancellation followed by a normal
return from main. -/
theorem c1_exit_codes (w : World) :
    (¬StartupOK w →
      ∃ m, (runMain w).exitKind = ExitKind.fatalExit m ∧
        exitCode (runMain w).exitKind = some 1) ∧
    (StartupOK w → (∃ j, j < w.envConfig.listenOn.length ∧ w.bindErr j ≠ none) →
      ∃ m, (runMain w).exitKind = ExitKind.fatalExit m ∧
        exitCode (runMain w).exitKind = some 1) ∧
    (StartupOK w → NoSyncErr w → w.firstAsync = none → w.signalArrives = true →
      exitCode (runMain w).exitKind = some 0) ∧
    (∀ i e, StartupOK w → NoSyncErr w → w.firstAsync = some (i, e) →
      i < w.envConfig.listenOn.length →
      exitCode (runMain w).exitKind = some 0 ∧
      { level := LogLvl.error, msg := e } ∈ (runMain w).log) := by
  refine ⟨?_, ?_, ?_, ?_⟩
  · intro hns
    rcases runMain_cases w with ⟨e, evs, lg, tc, ts, ca, heq, _, _, _, _⟩ | ⟨hok, _⟩
    · exact ⟨e, by rw [heq]; rfl, by rw [heq]; rfl⟩
    · exact absurd hok hns
  · intro hs hex
    have hspec := Nat.find_spec hex
    obtain ⟨hjn, hjne⟩ := hspec
    obtain ⟨e, he⟩ := Option.ne_none_iff_exists'.mp hjne
    have hpre : ∀ t, t < Nat.find hex → w.bindErr t = none := by
      intro t ht
      by_contra hne2
      exact Nat.find_min hex ht ⟨Nat.lt_trans ht hjn, hne2⟩
    have hloop := startLoopAux_firstErr w.bindErr e (Nat.find hex) 0
      w.envConfig.listenOn.length (by intro t ht; simpa using hpre t ht)
      (by simpa using he) hjn
    rw [runMain_startupOK w hs]
    unfold step7 startAll
    rw [hloop]
    exact ⟨e, by simp [step7a, postStartupRes], by simp [step7a, postStartupRes, exitCode]⟩
  · intro hs hn hfa hsig
    rw [runMain_startupOK w hs]
    unfold step7 startAll
    rw [startLoopAux_ok w.bindErr w.envConfig.listenOn.length 0
      (by intro jj hjj; simpa using hn jj hjj)]
    simp [step7a, asyncHit, hfa, step8, hsig, step9, postStartupRes, exitCode]
  · intro i e hs hn hfa hi
    rw [runMain_startupOK w hs]
    unfold step7 startAll
    rw [startLoopAux_ok w.bindErr w.envConfig.listenOn.length 0
      (by intro jj hjj; simpa using hn jj hjj)]
    have hmem : i ∈ List.range' 0 w.envConfig.listenOn.length := by
      rw [← List.range_eq_range']
      exact List.mem_range.mpr hi
    simp [step7a, asyncHit, hfa, hmem, step8, postStartupRes, deliverAsync, exitCode]

/-- C1 witness: the four exit-code cases at concrete runs: a usage
failure and a synchronous bind failure exit with code 1; the
signal-triggered clean run and the asynchronous-listener-error run exit
with code 0. -/
theorem c1_exit_codes_witness :
    (∃ m, (runMain wFatal).exitKind = ExitKind.fatalExit m ∧
      exitCode (runMain wFatal).exitKind = some 1) ∧
    (∃ m, (runMain wSync).exitKind = ExitKind.fatalExit m ∧
      exitCode (runMain wSync).exitKind = some 1) ∧
    exitCode (runMain wOK).exitKind = some 0 ∧
    (exitCode (runMain wAsync).exitKind = some 0 ∧
      { level := LogLvl.error, msg := "listener error" } ∈ (runMain wAsync).log) :=
  ⟨(c1_exit_codes wFatal).1 (fun hS => Option.noConfusion hS.1),
    (c1_exit_codes wSync).2.1 ⟨rfl, rfl, rfl, rfl, rfl, rfl⟩
      ⟨1, by decide, by decide⟩,
    (c1_exit_codes wOK).2.2.1 ⟨rfl, rfl, rfl, rfl, rfl, rfl⟩ (fun _ _ => rfl) rfl rfl,
    (c1_exit_codes wAsync).2.2.2 0 "listener error" ⟨rfl, rfl, rfl, rfl, rfl, rfl⟩
      (fun _ _ => rfl) rfl (by decide)⟩

/-- C1 counterexample: a run with an asynchronous listener error and no
other failure exits with code zero, so the process exit code is not
non-zero on every listener error as the claim states. -/
theorem c1_counterexample :
    wAsync.firstAsync = some (0, "listener error") ∧
    { level := LogLvl.error, msg := "listener error" } ∈ (runMain wAsync).log ∧
    (runMain wAsync).exitKind = ExitKind.clean ∧
    exitCode (runMain wAsync).exitKind = some 0 :=
  ⟨rfl, by decide, rfl, rfl⟩

/-- C9: in every run that constructs the registry chain, identity
acquisition (X509 source and SVID) and both TLS configuration builds
occur strictly before chain construction, and every listener start
occurs strictly after it; listeners start in configured order: the
started indices always form an initial, increasing range of the address
list. -/
theorem c9_ordering (w : World)
    (h : Event.newRegistryChain ∈ (runMain w).events) :
    (∃ p s, (runMain w).events = p ++ Event.newRegistryChain :: s ∧
      Event.getX509Source ∈ p ∧ Event.getSVID ∈ p ∧
      Event.buildTLSClientConf ∈ p ∧ Event.buildTLSServerConf ∈ p ∧
      (∀ i, Event.listenAndServe i ∉ p)) ∧
    (∃ m, m ≤ w.envConfig.listenOn.length ∧
      (runMain w).events.filterMap listenIdx = List.range' 0 m) := by
  rcases runMain_cases w with ⟨e, evs, lg, tc, ts, ca, heq, hchain, _, _, _⟩ | ⟨_, heq⟩
  · rw [heq] at h
    simp only [fatalRes] at h
    exact absurd h hchain
  · rw [heq] at h ⊢
    obtain ⟨t, ht, htf⟩ :=
      step7_events w (startAll w.bindErr w.envConfig.listenOn.length)
    obtain ⟨m, hm, hfm⟩ :=
      startLoopAux_filterMap w.bindErr w.envConfig.listenOn.length 0
    rw [ht]
    constructor
    · refine ⟨[Event.envProcess, Event.getX509Source, Event.getSVID,
        Event.buildTLSClientConf, Event.buildTLSServerConf, Event.newVersionedClient],
        (startAll w.bindErr w.envConfig.listenOn.length).events ++ t, ?_, ?_, ?_, ?_, ?_, ?_⟩
      · simp [preLoopEvents]
      · simp
      · simp
      · simp
      · simp
      · intro i
        simp
    · refine ⟨m, hm, ?_⟩
      rw [List.filterMap_append, List.filterMap_append]
      have hpre : preLoopEvents.filterMap listenIdx = [] := rfl
      have hstart : (startAll w.bindErr w.envConfig.listenOn.length).events.filterMap
          listenIdx = List.range' 0 m := hfm
      rw [hpre, hstart, htf]
      simp

/-- C9 witness: the clean concrete run constructs the chain; its events
decompose around the chain construction with identity and TLS before it
and no listener start before it, and the started listeners are exactly
indices 0 and 1 in order. -/
theorem c9_ordering_witness :
    (∃ p s, (runMain wOK).events = p ++ Event.newRegistryChain :: s ∧
      Event.getX509Source ∈ p ∧ Event.getSVID ∈ p ∧
      Event.buildTLSClientConf ∈ p ∧ Event.buildTLSServerConf ∈ p ∧
      (∀ i, Event.listenAndServe i ∉ p)) ∧
    (∃ m, m ≤ wOK.envConfig.listenOn.length ∧
      (runMain wOK).events.filterMap listenIdx = List.range' 0 m) :=
  c9_ordering wOK (by decide)

end RegistryK8s
